import Mathlib

/-!
Verification of the reactive-binding core of `rust-dominator` (`src/dom.rs`)
against its natural-language specification.

The embedding models the external DOM as a trace of effect events.  Each
binding closure from the source is translated into a Lean step function over
its private state, and the stream-driven subscription (`for_each`) becomes a
fold of that step function over the list of values the signal emits.  The
`Callbacks` type and the `operations` module are not part of the provided
source; they are modelled from the spec (§4.1 Scoped Release List, §4.4) and
marked as such in their doc comments.
-/

namespace Dominator

/-- External tree effects (the "tree primitive API" of the spec §6), plus
abstract attach/detach release actions identified by number. -/
inductive Event where
  | appendChild (parent child : Nat)
  | removeChild (parent child : Nat)
  | setAttribute (name value : String)
  | removeAttribute (name : String)
  | setAttributeNs (ns name value : String)
  | removeAttributeNs (ns name : String)
  | addClass (name : String)
  | removeClass (name : String)
  | setStyle (name value : String) (important : Bool)
  | removeStyle (name : String)
  | setProperty (name value : String)
  | setText (value : String)
  | setFocused (b : Bool)
  | setScroll (v : Int)
  | attachAction (id : Nat)
  | detachAction (id : Nat)
  deriving DecidableEq, Repr

/-- An entry of the `on_attach` list.  Modelled from the spec (§4.1; the
`Callbacks` type lives in the crate's `callbacks` module, which is not part
of the provided source): an attach action runs once, performs its effects,
and receives the still-open `on_detach` sequence so it can register further
detach-time cleanup (`registers`). -/
structure AttachEntry where
  effects : List Event
  registers : List Nat
  deriving DecidableEq, Repr

/-- Modelled from the spec: the Scoped Release List of `callbacks::Callbacks`
(not under `src/`): two ordered sequences of release actions,
`after_insert` (attach phase) and `after_remove` (detach phase). -/
structure Callbacks where
  after_insert : List AttachEntry
  after_remove : List Nat
  deriving DecidableEq, Repr

namespace Callbacks

/-- Modelled from the spec: a fresh, empty release list (`Callbacks::new`). -/
def new : Callbacks := { after_insert := [], after_remove := [] }

/-- Modelled from the spec: `register_on_attach` appends to the attach
sequence. -/
def after_insert_register (c : Callbacks) (a : AttachEntry) : Callbacks :=
  { c with after_insert := c.after_insert ++ [a] }

/-- Modelled from the spec: `register_on_detach` appends to the detach
sequence. -/
def after_remove_register (c : Callbacks) (id : Nat) : Callbacks :=
  { c with after_remove := c.after_remove ++ [id] }

end Callbacks

/-- Runs attach entries in registration order: each appends its registrations
to the open detach sequence and its effects to the trace. -/
def runAttachEntries : List AttachEntry → List Nat → List Event → List Nat × List Event
  | [], det, tr => (det, tr)
  | a :: rest, det, tr => runAttachEntries rest (det ++ a.registers) (tr ++ a.effects)

namespace Callbacks

/-- Modelled from the spec: `trigger_after_insert` drains and runs every
attach action in registration order, letting each register further detach
actions, and clears the attach list.  Returns the new state and the trace of
effects the attach actions performed. -/
def trigger_after_insert (c : Callbacks) : Callbacks × List Event :=
  let r := runAttachEntries c.after_insert c.after_remove []
  ({ after_insert := [], after_remove := r.1 }, r.2)

/-- Modelled from the spec: `leak()` clears the `on_detach` sequence without
running it. -/
def leak (c : Callbacks) : Callbacks :=
  { c with after_remove := [] }

/-- Modelled from the spec: `discard` (drop-time drain) runs every detach
action in registration order; the result is the trace of their runs. -/
def discard (c : Callbacks) : List Event :=
  c.after_remove.map Event.detachAction

end Callbacks

/-- The `Dom` struct (src/dom.rs lines 223-227): a tree node handle plus its
release list.  External nodes are identified by number. -/
structure Dom where
  element : Nat
  callbacks : Callbacks
  deriving DecidableEq, Repr

/-- The parent node's state in the external tree: its identity and its
current ordered list of children. -/
structure ParentNode where
  id : Nat
  children : List Nat
  deriving DecidableEq, Repr

/-- The tree primitive `remove_child` (spec §6): fails if the child is not
currently a child of the parent. -/
def remove_child (p : ParentNode) (c : Nat) : Option ParentNode :=
  if c ∈ p.children then some { p with children := p.children.erase c } else none

/-- The tree primitive `append_child`: appends the child at the end. -/
def append_child (p : ParentNode) (c : Nat) : ParentNode :=
  { p with children := p.children ++ [c] }

/-- The `DomHandle` struct (src/dom.rs lines 73-76): owns the parent node and
the attached `Dom`. -/
structure DomHandle where
  parent : ParentNode
  dom : Dom
  deriving DecidableEq, Repr

/-- `DomHandle::discard` (src/dom.rs lines 78-84): first
`self.parent.remove_child(&self.dom.element).unwrap();`, then
`self.dom.callbacks.discard();`.  `none` models the abnormal termination of
the `unwrap` when `remove_child` fails; on success the result is the new
parent state and the ordered trace of effects. -/
def DomHandle.discard (h : DomHandle) : Option (ParentNode × List Event) :=
  match remove_child h.parent h.dom.element with
  | none => none
  | some p =>
      some (p, Event.removeChild h.parent.id h.dom.element :: h.dom.callbacks.discard)

/-- `append_dom` (src/dom.rs lines 86-99): `parent.append_child`, then
`callbacks.trigger_after_insert()`, then `callbacks.leak()`, returning the
`DomHandle`.  The result is the new parent, the handle, and the trace of
effects performed. -/
def append_dom (p : ParentNode) (dom : Dom) : ParentNode × DomHandle × List Event :=
  let p2 := append_child p dom.element
  let r := dom.callbacks.trigger_after_insert
  (p2,
   { parent := p2, dom := { dom with callbacks := r.1.leak } },
   Event.appendChild p.id dom.element :: r.2)

/-- Modelled from the spec: `operations::for_each` (not under `src/`) drives
the per-value callback once per emitted value, in emission order; the trace
is the concatenation of the callback's effects. -/
def for_each_run {α : Type} (f : α → List Event) : List α → List Event
  | [] => []
  | v :: vs => f v ++ for_each_run f vs

/-- Modelled from the spec: `for_each` with a stateful callback (a closure
capturing mutable state, as in `set_option_str` and `set_class_signal`):
fold the step function over the emitted values, collecting effects. -/
def for_each_state_run {σ α : Type} (step : σ → α → σ × List Event) :
    σ → List α → List Event
  | _, [] => []
  | s, v :: vs =>
      let p := step s v
      p.2 ++ for_each_state_run step p.1 vs

/-- The body of the closure in `set_option_str` (src/dom.rs lines 284-312):
on `Some`, set `is_set` and call `f` with the value; on `None` with `is_set`,
clear `is_set` and call `f` with `None`; on `None` without `is_set`, return
without calling `f`. -/
def set_option_str_step (f : Option String → List Event) (is_set : Bool)
    (v : Option String) : Bool × List Event :=
  match v with
  | some s => (true, f (some s))
  | none => if is_set then (false, f none) else (is_set, [])

/-- `set_option_str` run over a whole emission sequence; the source
initialises `is_set = false` before subscribing. -/
def set_option_str_run (f : Option String → List Event) (is_set : Bool)
    (vs : List (Option String)) : List Event :=
  for_each_state_run (set_option_str_step f) is_set vs

/-- The effect closure `set_attribute_signal` passes to `set_option_str`
(src/dom.rs lines 507-520): `Some` sets the attribute, `None` removes it. -/
def set_attribute_signal_f (name : String) : Option String → List Event
  | some v => [Event.setAttribute name v]
  | none => [Event.removeAttribute name]

/-- The effect closure of `set_attribute_namespace_signal` (src/dom.rs lines
533-547). -/
def set_attribute_namespace_signal_f (ns name : String) : Option String → List Event
  | some v => [Event.setAttributeNs ns name v]
  | none => [Event.removeAttributeNs ns name]

/-- The effect closure of `set_style_signal` (src/dom.rs lines 643-655);
`style_signal` passes `important = false`, `style_important_signal` passes
`important = true`. -/
def set_style_signal_f (name : String) (important : Bool) : Option String → List Event
  | some v => [Event.setStyle name v important]
  | none => [Event.removeStyle name]

/-- The body of the closure in `set_class_signal` (src/dom.rs lines 560-583):
add the class only on a false-to-true transition of `is_set`, remove it only
on a true-to-false transition. -/
def set_class_signal_step (name : String) (is_set : Bool) (v : Bool) :
    Bool × List Event :=
  if v then
    if is_set then (is_set, []) else (true, [Event.addClass name])
  else
    if is_set then (false, [Event.removeClass name]) else (is_set, [])

/-- `set_class_signal` run over a whole emission sequence; the source
initialises `is_set = false`. -/
def set_class_signal_run (name : String) (is_set : Bool) (vs : List Bool) : List Event :=
  for_each_state_run (set_class_signal_step name) is_set vs

/-- `DomBuilder` (src/dom.rs lines 315-320): the element, the release list,
and the one-shot `has_children` flag. -/
structure DomBuilder where
  element : Nat
  callbacks : Callbacks
  has_children : Bool
  deriving DecidableEq, Repr

/-- `DomBuilder::new` (src/dom.rs lines 323-330). -/
def DomBuilder.new (e : Nat) : DomBuilder :=
  { element := e, callbacks := Callbacks.new, has_children := false }

/-- `DomBuilder::into_dom` (src/dom.rs lines 404-412). -/
def DomBuilder.into_dom (b : DomBuilder) : Dom :=
  { element := b.element, callbacks := b.callbacks }

/-- Modelled from the spec: `operations::insert_children_iter` (not under
`src/`) moves each supplied node into the tree as an immediate child, in
iteration order, and wires each child's release phases to the parent's
release list. -/
def insert_children_iter (element : Nat) (cb : Callbacks) (children : List Dom) :
    Callbacks × List Event :=
  (children.foldl (fun c d => c.after_remove_register d.element) cb,
   children.map (fun d => Event.appendChild element d.element))

/-- `DomBuilder::children` (src/dom.rs lines 462-469):
`assert_eq!(self.has_children, false)` before anything else, then set the
flag and insert the children.  `none` models the abnormal termination of the
assertion; the event list is the tree mutation the call performed. -/
def DomBuilder.children (b : DomBuilder) (cs : List Dom) :
    Option DomBuilder × List Event :=
  if b.has_children then (none, [])
  else
    let r := insert_children_iter b.element b.callbacks cs
    (some { b with has_children := true, callbacks := r.1 }, r.2)

/-- `DomBuilder::children_signal_vec` (src/dom.rs lines 473-483): the same
`has_children` assertion first, then (modelled from the spec, the body being
`operations::insert_children_signal_vec`, not under `src/`) registration of
the children-list subscription for detach, with no immediate tree
mutation. -/
def DomBuilder.children_signal_vec (b : DomBuilder) (subId : Nat) :
    Option DomBuilder × List Event :=
  if b.has_children then (none, [])
  else
    (some { b with has_children := true,
                   callbacks := b.callbacks.after_remove_register subId }, [])

/-- The states of `IsWindowLoaded` (src/dom.rs lines 134-141).  The
`Pending` payload (the oneshot receiver and the registered load event) lives
in the environment model `PollEnv`. -/
inductive IsWindowLoaded where
  | Initial
  | Pending
  | Done
  deriving DecidableEq, Repr

/-- The external environment a poll observes: whether
`document.readyState === "complete"`, and whether the oneshot receiver of the
load event has fired. -/
structure PollEnv where
  readyState_complete : Bool
  receiver_fired : Bool
  deriving DecidableEq, Repr

/-- The `Async` result of a poll: `ready v` is `Async::Ready(v)` with
`v : Option Bool` the yielded value, `pending` is `Async::Pending`. -/
inductive PollResult where
  | ready (v : Option Bool)
  | pending
  deriving DecidableEq, Repr

/-- The outcome of one `poll_change` call: the successor state, the returned
`Async` value, and whether this call registered a load-event notification. -/
structure PollOut where
  state : IsWindowLoaded
  result : PollResult
  registered : Bool
  deriving DecidableEq, Repr

/-- `IsWindowLoaded::poll_change` (src/dom.rs lines 146-181): the match on
the current state, followed by the epilogue that moves to `Done` whenever the
result is `Ready(Some(true))`.  In the `Initial` branch, a false readiness
check registers the load-event listener and moves to `Pending`. -/
def IsWindowLoaded.poll_change (env : PollEnv) (s : IsWindowLoaded) : PollOut :=
  let m : IsWindowLoaded × PollResult × Bool :=
    match s with
    | .Initial =>
        if env.readyState_complete then (.Initial, .ready (some true), false)
        else (.Pending, .ready (some false), true)
    | .Pending =>
        if env.receiver_fired then (.Pending, .ready (some true), false)
        else (.Pending, .pending, false)
    | .Done => (.Done, .ready none, false)
  let st := if m.2.1 = PollResult.ready (some true) then IsWindowLoaded.Done else m.1
  { state := st, result := m.2.1, registered := m.2.2 }

/-- The per-value callback of `set_focused_signal` (src/dom.rs lines
695-711): it calls `dom_operations::set_focused(&element, value)` on every
emitted value, with no comparison against the previous value. -/
def set_focused_signal_apply (v : Bool) : List Event := [Event.setFocused v]

/-- The `set_focused_signal` subscription run over a whole emission
sequence. -/
def set_focused_signal_run (vs : List Bool) : List Event :=
  for_each_run set_focused_signal_apply vs

/-- The focus binding as the spec's words describe it (edge-triggered with
implicit initial state off, like `set_class_signal`); written from the spec
for comparison with the source behaviour, not from the source. -/
def focused_signal_claimed_run : Bool → List Bool → List Event
  | _, [] => []
  | last, v :: vs =>
      if v = last then focused_signal_claimed_run last vs
      else Event.setFocused v :: focused_signal_claimed_run v vs

/-- The per-value callback of `set_scroll_signal` (src/dom.rs lines
596-613): `if let Some(value) = value { f(&element, value) }`. -/
def set_scroll_signal_apply : Option Int → List Event
  | some v => [Event.setScroll v]
  | none => []

/-- The attach action `set_scroll_signal` registers: it starts the `for_each`
subscription (whose per-value effects happen from attach time on) and
registers the subscription's discard in the detach phase. -/
def set_scroll_signal_entry (subId : Nat) (vals : List (Option Int)) : AttachEntry :=
  { effects := for_each_run set_scroll_signal_apply vals, registers := [subId] }

/-- `DomBuilder::set_scroll_signal` (src/dom.rs lines 596-613): registration
only appends an attach action via `callbacks.after_insert`; the subscription
is started inside that action.  The event list is the registration-time
trace. -/
def DomBuilder.set_scroll_signal (b : DomBuilder) (subId : Nat)
    (vals : List (Option Int)) : DomBuilder × List Event :=
  ({ b with callbacks :=
      b.callbacks.after_insert_register (set_scroll_signal_entry subId vals) }, [])

/-- The attach action `set_focused_signal` registers (src/dom.rs lines
695-711): start the `for_each` subscription and register its discard for the
detach phase. -/
def set_focused_signal_entry (subId : Nat) (vals : List Bool) : AttachEntry :=
  { effects := set_focused_signal_run vals, registers := [subId] }

/-- `DomBuilder::set_focused_signal` (src/dom.rs lines 695-711): registration
only appends an attach action via `callbacks.after_insert`. -/
def DomBuilder.set_focused_signal (b : DomBuilder) (subId : Nat)
    (vals : List Bool) : DomBuilder × List Event :=
  ({ b with callbacks :=
      b.callbacks.after_insert_register (set_focused_signal_entry subId vals) }, [])

/-- `DomBuilder::focused` (src/dom.rs lines 681-692): registration appends an
attach action that performs the one-shot `set_focused` effect; nothing
happens at registration time. -/
def DomBuilder.focused (b : DomBuilder) (value : Bool) : DomBuilder × List Event :=
  let entry : AttachEntry := { effects := [Event.setFocused value], registers := [] }
  ({ b with callbacks := b.callbacks.after_insert_register entry }, [])

/-- Composition used to relate registration and attachment: build a fresh
builder for element `e`, run one registration call on it, then append the
finished node into parent `p`; the result is the complete effect trace. -/
def register_then_append (p : ParentNode) (e : Nat)
    (regFn : DomBuilder → DomBuilder × List Event) : List Event :=
  let r := regFn (DomBuilder.new e)
  r.2 ++ (append_dom p r.1.into_dom).2.2

/-- `DomBuilder::set_attribute_signal` (src/dom.rs lines 507-520) at
registration time: the `for_each` subscription (identified by `subId`) is
appended to the detach phase of the release list; no external effect is
performed. -/
def DomBuilder.set_attribute_signal (b : DomBuilder) (subId : Nat) :
    DomBuilder × List Event :=
  ({ b with callbacks := b.callbacks.after_remove_register subId }, [])

/-- `DomBuilder::set_property_signal` (src/dom.rs lines 424-435) at
registration time: same bookkeeping-only shape as `set_attribute_signal`. -/
def DomBuilder.set_property_signal (b : DomBuilder) (subId : Nat) :
    DomBuilder × List Event :=
  ({ b with callbacks := b.callbacks.after_remove_register subId }, [])

/-- `text_signal` (src/dom.rs lines 197-220): create a fresh (detached) text
node, a fresh release list, and register the `for_each` subscription in its
detach phase; the returned trace is the registration-time external-tree
trace. -/
def text_signal (textNode : Nat) (subId : Nat) : Dom × List Event :=
  ({ element := textNode, callbacks := Callbacks.new.after_remove_register subId }, [])

/-- The `set_attribute_signal` subscription run over its emissions (through
`set_option_str` with `is_set` initially false). -/
def set_attribute_signal_sub_run (name : String) (vals : List (Option String)) :
    List Event :=
  set_option_str_run (set_attribute_signal_f name) false vals

/-- The `set_property_signal` subscription run over its emissions: the
closure calls `set_property` on every value (src/dom.rs lines 432-434). -/
def set_property_signal_sub_run (name : String) (vals : List String) : List Event :=
  for_each_run (fun v => [Event.setProperty name v]) vals

/-- The `text_signal` subscription run over its emissions: the closure calls
`set_text` on every value (src/dom.rs lines 209-213). -/
def text_signal_sub_run (vals : List String) : List Event :=
  for_each_run (fun v => [Event.setText v]) vals

/-- `DerefFn` (src/dom.rs lines 21-40): an owned value plus a projection
function. -/
structure DerefFn (A B : Type) where
  value : A
  callback : A → B

/-- `DerefFn::new` (src/dom.rs lines 27-30). -/
def DerefFn.new {A B : Type} (value : A) (callback : A → B) : DerefFn A B :=
  { value := value, callback := callback }

/-- `DerefFn::deref` (src/dom.rs lines 36-39): `(self.callback)(&self.value)`. -/
def DerefFn.deref {A B : Type} (d : DerefFn A B) : B :=
  d.callback d.value

end Dominator

namespace Dominator

/-- C1: disposal of a `DomHandle` first removes the child node from the
recorded parent via `remove_child` (terminating abnormally when the child is
not currently a child of that parent), and only then runs the node's
detach-phase (`after_remove`) release actions, in registration order. -/
theorem domHandle_discard_order (h : DomHandle) :
    (h.dom.element ∈ h.parent.children →
      h.discard = some ({ h.parent with children := h.parent.children.erase h.dom.element },
        Event.removeChild h.parent.id h.dom.element ::
          h.dom.callbacks.after_remove.map Event.detachAction)) ∧
    (h.dom.element ∉ h.parent.children → h.discard = none) := by
  constructor
  · intro hmem
    simp [DomHandle.discard, remove_child, hmem, Callbacks.discard]
  · intro hmem
    simp [DomHandle.discard, remove_child, hmem]

/-- Witness for C1 at a concrete attached handle: parent 0 with child 5 and
two registered detach actions. -/
theorem domHandle_discard_order_witness :
    DomHandle.discard
        { parent := { id := 0, children := [5] },
          dom := { element := 5,
                   callbacks := { after_insert := [], after_remove := [3, 4] } } } =
      some ({ id := 0, children := List.erase [5] 5 },
        Event.removeChild 0 5 :: List.map Event.detachAction [3, 4]) :=
  (domHandle_discard_order
    { parent := { id := 0, children := [5] },
      dom := { element := 5,
               callbacks := { after_insert := [], after_remove := [3, 4] } } }).1
    (by decide)

/-- C2: `append_dom` inserts the child, triggers the attach phase, then
leaks the callbacks: the resulting handle's detach list is empty, discarding
its callbacks runs nothing, the trace of `append_dom` is the insertion
followed only by the attach-phase effects, and even disposing the returned
handle runs zero detach actions. -/
theorem append_dom_leaks_detach_phase (p : ParentNode) (d : Dom) :
    (append_dom p d).2.1.dom.callbacks.after_remove = [] ∧
    (append_dom p d).2.1.dom.callbacks.discard = [] ∧
    (append_dom p d).2.2 =
      Event.appendChild p.id d.element :: d.callbacks.trigger_after_insert.2 ∧
    (append_dom p d).1 = append_child p d.element ∧
    Option.map (fun r => r.2) (append_dom p d).2.1.discard =
      some [Event.removeChild p.id d.element] := by
  refine ⟨rfl, rfl, rfl, rfl, ?_⟩
  simp [append_dom, DomHandle.discard, remove_child, append_child,
    Callbacks.leak, Callbacks.discard]

/-- C3: the optional-value policy of `set_option_str` (shared by
`attribute_signal`, `attribute_namespace_signal`, `style_signal`,
`style_important_signal`): an emitted `Some s` invokes the set effect with
`s` and makes the state true; an emitted `None` with the state true invokes
the clear effect and makes the state false; an emitted `None` with the state
already false invokes nothing.  On the sequence
`[Some "a", Some "a", None, None, Some "b"]` from the initial false state the
external calls are exactly set, set, clear, set in that order, shown here for
the attribute, namespaced-attribute and style instantiations. -/
theorem set_option_str_policy :
    (∀ (f : Option String → List Event) (st : Bool) (s : String) (vs : List (Option String)),
      set_option_str_run f st (some s :: vs) = f (some s) ++ set_option_str_run f true vs) ∧
    (∀ (f : Option String → List Event) (vs : List (Option String)),
      set_option_str_run f true (none :: vs) = f none ++ set_option_str_run f false vs) ∧
    (∀ (f : Option String → List Event) (vs : List (Option String)),
      set_option_str_run f false (none :: vs) = set_option_str_run f false vs) ∧
    set_option_str_run (set_attribute_signal_f "x") false
        [some "a", some "a", none, none, some "b"] =
      [Event.setAttribute "x" "a", Event.setAttribute "x" "a",
       Event.removeAttribute "x", Event.setAttribute "x" "b"] ∧
    set_option_str_run (set_attribute_namespace_signal_f "n" "x") false
        [some "a", some "a", none, none, some "b"] =
      [Event.setAttributeNs "n" "x" "a", Event.setAttributeNs "n" "x" "a",
       Event.removeAttributeNs "n" "x", Event.setAttributeNs "n" "x" "b"] ∧
    set_option_str_run (set_style_signal_f "s" true) false
        [some "a", some "a", none, none, some "b"] =
      [Event.setStyle "s" "a" true, Event.setStyle "s" "a" true,
       Event.removeStyle "s", Event.setStyle "s" "b" true] := by
  refine ⟨?_, ?_, ?_, rfl, rfl, rfl⟩
  · intro f st s vs
    simp [set_option_str_run, for_each_state_run, set_option_str_step]
  · intro f vs
    simp [set_option_str_run, for_each_state_run, set_option_str_step]
  · intro f vs
    simp [set_option_str_run, for_each_state_run, set_option_str_step]

/-- C4: the `set_class_signal` policy: starting from the implicit initial
state off, the add-class effect fires only on a false-to-true transition and
the remove-class effect only on a true-to-false transition; repeated
identical values produce no external effect, and the first emitted true
always fires add-class.  Feeding `[false, false, true, true, false]` yields
exactly the two calls add-class then remove-class. -/
theorem set_class_signal_policy :
    (∀ (name : String) (vs : List Bool),
      set_class_signal_run name false (true :: vs) =
        Event.addClass name :: set_class_signal_run name true vs) ∧
    (∀ (name : String) (vs : List Bool),
      set_class_signal_run name true (true :: vs) = set_class_signal_run name true vs) ∧
    (∀ (name : String) (vs : List Bool),
      set_class_signal_run name true (false :: vs) =
        Event.removeClass name :: set_class_signal_run name false vs) ∧
    (∀ (name : String) (vs : List Bool),
      set_class_signal_run name false (false :: vs) = set_class_signal_run name false vs) ∧
    set_class_signal_run "c" false [false, false, true, true, false] =
      [Event.addClass "c", Event.removeClass "c"] := by
  refine ⟨?_, ?_, ?_, ?_, rfl⟩ <;>
    · intro name vs
      simp [set_class_signal_run, for_each_state_run, set_class_signal_step]

/-- C5: calling a children-assignment method a second time on the same
builder (in any combination of `children` and `children_signal_vec`) fails
the `has_children` assertion, and the failing call performs no tree mutation
(its event trace is empty). -/
theorem domBuilder_children_once (b b' : DomBuilder) (cs cs2 : List Dom) (s s2 : Nat) :
    (b.has_children = true →
      b.children cs = (none, []) ∧ b.children_signal_vec s = (none, [])) ∧
    ((b.children cs).1 = some b' →
      b'.children cs2 = (none, []) ∧ b'.children_signal_vec s2 = (none, [])) ∧
    ((b.children_signal_vec s).1 = some b' →
      b'.children cs2 = (none, []) ∧ b'.children_signal_vec s2 = (none, [])) := by
  refine ⟨?_, ?_, ?_⟩
  · intro h
    simp [DomBuilder.children, DomBuilder.children_signal_vec, h]
  · intro h
    by_cases hb : b.has_children
    · simp [DomBuilder.children, hb] at h
    · simp [DomBuilder.children, hb] at h
      simp [DomBuilder.children, DomBuilder.children_signal_vec, ← h]
  · intro h
    by_cases hb : b.has_children
    · simp [DomBuilder.children_signal_vec, hb] at h
    · simp [DomBuilder.children_signal_vec, hb] at h
      simp [DomBuilder.children, DomBuilder.children_signal_vec, ← h]

/-- Witness for C5 at a concrete builder whose children were already
assigned. -/
theorem domBuilder_children_once_witness :
    DomBuilder.children
        { element := 0, callbacks := Callbacks.new, has_children := true } [] = (none, []) ∧
    DomBuilder.children_signal_vec
        { element := 0, callbacks := Callbacks.new, has_children := true } 7 = (none, []) :=
  (domBuilder_children_once
    { element := 0, callbacks := Callbacks.new, has_children := true }
    { element := 0, callbacks := Callbacks.new, has_children := true }
    [] [] 7 7).1 rfl

/-- C6: if `document.readyState === "complete"` is true at the first poll,
`IsWindowLoaded::poll_change` from `Initial` yields exactly the value `true`,
registers no load-event notification, and transitions to `Done`; and `Done`
is absorbing, yielding no further value on every subsequent poll in every
environment. -/
theorem isWindowLoaded_ready_at_first_poll (b r f : Bool) :
    IsWindowLoaded.poll_change
        { readyState_complete := true, receiver_fired := b } IsWindowLoaded.Initial =
      { state := IsWindowLoaded.Done, result := PollResult.ready (some true),
        registered := false } ∧
    IsWindowLoaded.poll_change
        { readyState_complete := r, receiver_fired := f } IsWindowLoaded.Done =
      { state := IsWindowLoaded.Done, result := PollResult.ready none,
        registered := false } := by
  constructor <;> simp [IsWindowLoaded.poll_change]

/-- C7 counterexample: `set_focused_signal` is not edge-triggered.  On the
emission sequence `[true, true]`, the source calls `set_focused` twice, while
the edge-triggered behaviour the claim describes would call it once. -/
theorem set_focused_signal_not_edge_triggered :
    set_focused_signal_run [true, true] =
      [Event.setFocused true, Event.setFocused true] ∧
    focused_signal_claimed_run false [true, true] = [Event.setFocused true] ∧
    set_focused_signal_run [true, true] ≠ focused_signal_claimed_run false [true, true] := by
  decide

/-- C7 amended: the focus binding is level-triggered, not edge-triggered: the
external `set_focused` effect is invoked once per emitted value, regardless
of whether the value differs from the last observed value, so repeated
identical values each produce an external call. -/
theorem set_focused_signal_every_value (v : Bool) (vs : List Bool) :
    set_focused_signal_run (v :: vs) =
      Event.setFocused v :: set_focused_signal_run vs ∧
    set_focused_signal_run vs = vs.map Event.setFocused := by
  constructor
  · simp [set_focused_signal_run, for_each_run, set_focused_signal_apply]
  · induction vs with
    | nil => rfl
    | cons h t ih =>
        simp [set_focused_signal_run, for_each_run, set_focused_signal_apply] at ih ⊢
        exact ih

/-- C8: the scroll and focus bindings start their per-value subscription (or
perform their one-shot effect) only inside the attach-phase callback: at
registration time the trace is empty, the detach list is untouched, and the
only change is one appended attach action; consequently, in the full
register-then-append pipeline every scroll or focus effect occurs strictly
after the node is inserted into the live tree. -/
theorem scroll_focus_subscriptions_start_on_attach
    (b : DomBuilder) (subId : Nat) (svals : List (Option Int)) (fvals : List Bool)
    (v : Bool) (p : ParentNode) (e : Nat) :
    ((b.set_scroll_signal subId svals).2 = [] ∧
      (b.set_scroll_signal subId svals).1.callbacks.after_insert =
        b.callbacks.after_insert ++ [set_scroll_signal_entry subId svals] ∧
      (b.set_scroll_signal subId svals).1.callbacks.after_remove =
        b.callbacks.after_remove) ∧
    ((b.set_focused_signal subId fvals).2 = [] ∧
      (b.set_focused_signal subId fvals).1.callbacks.after_insert =
        b.callbacks.after_insert ++ [set_focused_signal_entry subId fvals] ∧
      (b.set_focused_signal subId fvals).1.callbacks.after_remove =
        b.callbacks.after_remove) ∧
    ((b.focused v).2 = [] ∧
      (b.focused v).1.callbacks.after_insert =
        b.callbacks.after_insert ++ [{ effects := [Event.setFocused v], registers := [] }] ∧
      (b.focused v).1.callbacks.after_remove = b.callbacks.after_remove) ∧
    register_then_append p e (fun b0 => b0.set_scroll_signal subId svals) =
      Event.appendChild p.id e :: for_each_run set_scroll_signal_apply svals ∧
    register_then_append p e (fun b0 => b0.set_focused_signal subId fvals) =
      Event.appendChild p.id e :: set_focused_signal_run fvals ∧
    register_then_append p e (fun b0 => b0.focused v) =
      [Event.appendChild p.id e, Event.setFocused v] := by
  refine ⟨⟨rfl, ?_, rfl⟩, ⟨rfl, ?_, rfl⟩, ⟨rfl, ?_, rfl⟩, ?_, ?_, ?_⟩ <;>
    simp [DomBuilder.set_scroll_signal, DomBuilder.set_focused_signal,
      DomBuilder.focused, Callbacks.after_insert_register, register_then_append,
      DomBuilder.new, DomBuilder.into_dom, append_dom, Callbacks.new,
      Callbacks.trigger_after_insert, runAttachEntries, Callbacks.leak,
      set_scroll_signal_entry, set_focused_signal_entry]

/-- C9: registering a pure signal binding (`attribute_signal`,
`property_signal`, `text_signal`) performs no external-tree mutation at
registration time: the only change is appending the subscription to the
node's detach-phase release list (for `text_signal`, on a fresh release
list), and the tree node is first touched only when the signal produces its
first value — a subscription whose signal emits nothing produces no event. -/
theorem pure_signal_registration_is_bookkeeping
    (b : DomBuilder) (subId n : Nat) (name s v : String)
    (vs : List String) (ovs : List (Option String)) :
    ((b.set_attribute_signal subId).2 = [] ∧
      (b.set_attribute_signal subId).1.callbacks.after_remove =
        b.callbacks.after_remove ++ [subId] ∧
      (b.set_attribute_signal subId).1.callbacks.after_insert =
        b.callbacks.after_insert ∧
      (b.set_attribute_signal subId).1.element = b.element) ∧
    ((b.set_property_signal subId).2 = [] ∧
      (b.set_property_signal subId).1.callbacks.after_remove =
        b.callbacks.after_remove ++ [subId] ∧
      (b.set_property_signal subId).1.callbacks.after_insert =
        b.callbacks.after_insert) ∧
    text_signal n subId =
      ({ element := n, callbacks := { after_insert := [], after_remove := [subId] } }, []) ∧
    (set_attribute_signal_sub_run name [] = [] ∧
      set_property_signal_sub_run name [] = [] ∧
      text_signal_sub_run [] = []) ∧
    (set_attribute_signal_sub_run name (some s :: ovs) =
        Event.setAttribute name s ::
          set_option_str_run (set_attribute_signal_f name) true ovs ∧
      set_property_signal_sub_run name (v :: vs) =
        Event.setProperty name v :: set_property_signal_sub_run name vs ∧
      text_signal_sub_run (v :: vs) = Event.setText v :: text_signal_sub_run vs) := by
  refine ⟨⟨rfl, rfl, rfl, rfl⟩, ⟨rfl, rfl, rfl⟩, ?_, ⟨rfl, rfl, rfl⟩, ⟨?_, rfl, rfl⟩⟩
  · simp [text_signal, Callbacks.new, Callbacks.after_remove_register]
  · simp [set_attribute_signal_sub_run, set_option_str_run, for_each_state_run,
      set_option_str_step, set_attribute_signal_f]

/-- C10: the derived-reference adapter satisfies
`DerefFn::new(v, f).deref() = f(v)`: every read goes through the projection
applied to the stored value, and constructing and dereferencing the adapter
leaves the stored value (and the projection) unchanged. -/
theorem derefFn_new_deref {A B : Type} (v : A) (f : A → B) :
    (DerefFn.new v f).deref = f v ∧
    (DerefFn.new v f).value = v ∧
    (DerefFn.new v f).callback = f :=
  ⟨rfl, rfl, rfl⟩

end Dominator
